import Mathlib

/-
  Verification of the structural validation engine of the repository
  (src/validation/index.ts together with the step interfaces in
  src/validation/steps.ts).

  The embedding models JavaScript runtime values shallowly:
  numbers are rationals (every numeric literal appearing in the verified
  scenarios is exactly representable, and JavaScript doubles rendered in
  plain decimal notation behave like the corresponding rationals for the
  comparisons and the decimal-point test used by the code), strings are
  Lean strings over their character lists (all verified scenarios are
  ASCII, where the JavaScript .length in UTF-16 code units equals the
  character count), thrown JavaScript exceptions are the error branch of
  Except, and the regular-expression engine of the host is embedded as
  the Boolean test function a concrete RegExp denotes.
-/

set_option autoImplicit false

/-- A JavaScript runtime value, as far as the validation engine can observe
one: null, undefined, booleans, numbers, strings, arrays and plain objects
(association lists of distinct string keys). -/
inductive JsValue where
  | null
  | undefined
  | bool (b : Bool)
  | num (q : ℚ)
  | str (s : String)
  | arr (elems : List JsValue)
  | obj (fields : List (String × JsValue))

/-- A thrown JavaScript exception: ordinary `new Error(message)` instances
raised by the engine itself, and TypeError instances raised by the runtime
(property access on null). -/
inductive JsError where
  | error (message : String)
  | typeError (message : String)
deriving DecidableEq

/-- The JavaScript typeof operator, restricted to the value model. Note
typeof null and typeof of an array are both the string object. -/
def jsTypeof : JsValue → String
  | .null => "object"
  | .undefined => "undefined"
  | .bool _ => "boolean"
  | .num _ => "number"
  | .str _ => "string"
  | .arr _ => "object"
  | .obj _ => "object"

/-- The loop guard of extractValue: typeof from === 'object'. -/
def isObjectTypeof (v : JsValue) : Bool :=
  jsTypeof v == "object"

/-- Characters removed by the JavaScript String.prototype.trim (the
whitespace characters that occur in practice; all verified scenarios only
use the plain space). -/
def isJsSpace (c : Char) : Bool :=
  c == ' ' || c == '\t' || c == '\n' || c == '\r' || c == '\x0b' || c == '\x0c'

/-- Drops leading JavaScript whitespace from a character list. -/
def dropJsSpace : List Char → List Char
  | [] => []
  | c :: cs => if isJsSpace c then dropJsSpace cs else c :: cs

/-- JavaScript String.prototype.trim: removes leading and trailing
whitespace. -/
def jsTrim (s : String) : String :=
  ⟨(dropJsSpace (dropJsSpace s.data.reverse).reverse)⟩

/-- The JavaScript .length of a string (UTF-16 code units; equal to the
character count on the ASCII strings of the verified scenarios). -/
def jsStrLen (s : String) : ℕ :=
  s.data.length

/-- Helper for jsSplitDot: accumulates the characters of the current
segment (in reverse) while walking the string. -/
def splitDotAux : List Char → List Char → List String
  | [], acc => [⟨acc.reverse⟩]
  | c :: cs, acc =>
      if c == '.' then ⟨acc.reverse⟩ :: splitDotAux cs []
      else splitDotAux cs (c :: acc)

/-- JavaScript String.prototype.split with separator '.': the list of
segments between the dots, keeping empty segments. -/
def jsSplitDot (s : String) : List String :=
  splitDotAux s.data []

/-- Decimal digit value of a character, if it is a digit. -/
def digitsToNatAux : List Char → ℕ → Option ℕ
  | [], acc => some acc
  | c :: cs, acc =>
      if '0' ≤ c && c ≤ '9' then digitsToNatAux cs (acc * 10 + (c.toNat - 48))
      else none

/-- A string property key seen as a canonical array index, the way the
JavaScript runtime treats indexed access on arrays: all digits, no leading
zero except the string 0 itself. (None of the verified scenarios index an
array through a path segment; this is included for faithfulness of
property access on arrays.) -/
def jsArrayIndex (s : String) : Option ℕ :=
  match s.data with
  | [] => none
  | ['0'] => some 0
  | '0' :: _ :: _ => none
  | cs => digitsToNatAux cs 0

/-- First-match lookup in the field list of an object value. JavaScript
object literals with duplicate keys keep the last one; the model assumes
distinct keys, which holds for every object in the verified scenarios. -/
def lookupField : List (String × JsValue) → String → JsValue
  | [], _ => .undefined
  | (k, v) :: rest, key => if k == key then v else lookupField rest key

/-- JavaScript property access from[key], performed by extractValue only
under the guard typeof from === 'object' (so from is null, an object or an
array). Access on null throws a TypeError; an absent property is
undefined. (Prototype properties such as length on arrays are outside the
scope of the verified scenarios and are modelled as plain data access.) -/
def getProp (v : JsValue) (key : String) : Except JsError JsValue :=
  match v with
  | .null => .error (.typeError ("Cannot read property " ++ key ++ " of null"))
  | .obj fields => .ok (lookupField fields key)
  | .arr xs =>
      .ok (match jsArrayIndex key with
           | some i => (xs.get? i).getD .undefined
           | none => .undefined)
  | _ => .ok .undefined

/-- extractValue(from, path) of src/validation/index.ts: walks all but the
last segment while typeof from === 'object', then reads the last segment
if the walk completed and the container still has typeof object; otherwise
the result is undefined. Property access on a null container throws a
TypeError (typeof null is the string object, so null passes the guard). -/
def extractValue (from_ : JsValue) (path : List String) : Except JsError JsValue :=
  match path with
  | [] => .ok .undefined
  | [k] => if isObjectTypeof from_ then getProp from_ k else .ok .undefined
  | k :: rest =>
      if isObjectTypeof from_ then
        match getProp from_ k with
        | .error e => .error e
        | .ok v => extractValue v rest
      else .ok .undefined

/-- parsePath of src/validation/index.ts: trims the whole string, rejects
an empty result, splits on dots, rejects any segment that trims to the
empty string, and returns the segments as split (they are not trimmed in
the returned list). -/
def parsePath (path : String) : Except JsError (List String) :=
  let path := jsTrim path
  if jsStrLen path == 0 then
    .error (.error "Provided path is empty")
  else
    let pathSteps := jsSplitDot path
    if pathSteps.any (fun v => jsStrLen (jsTrim v) == 0) then
      .error (.error "Provided path contains empty parts.")
    else
      .ok pathSteps

/-- Digits of the fractional part of a fraction r over d, rendered the way
JavaScript renders the fractional part of a double in plain decimal
notation. The fuel bounds the recursion; the decimal expansion of a double
always terminates well inside it. -/
def fracDigits : ℕ → ℕ → ℕ → String
  | 0, _, _ => ""
  | _ + 1, 0, _ => ""
  | fuel + 1, r, d =>
      let r10 := r * 10
      toString (r10 / d) ++ fracDigits fuel (r10 % d) d

/-- The template-literal rendering of a JavaScript number in plain decimal
notation (the rendering used for every number appearing in the verified
scenarios; very large or very small magnitudes that JavaScript renders in
exponent notation are outside the model). -/
def jsNumToString (q : ℚ) : String :=
  let sign := if q < 0 then "-" else ""
  let n := q.num.natAbs
  let d := q.den
  if n % d == 0 then sign ++ toString (n / d)
  else sign ++ toString (n / d) ++ "." ++ fracDigits 1100 (n % d) d

/-- The test performed by the integer checker on the textual form of the
value: whether the rendered number contains a decimal point, embedding the
source expression testing that the index of the dot character is not -1. -/
def jsHasDot (q : ℚ) : Bool :=
  (jsNumToString q).data.any (fun c => c == '.')

/-- A concrete JavaScript RegExp, embedded by its source text and the
Boolean matching function the host regular-expression engine gives it. -/
structure JsRegex where
  source : String
  test : String → Bool

/-- The bound configuration held by a StringValidator instance. -/
structure StringValidatorState where
  minLength : Option ℚ := none
  maxLength : Option ℚ := none
  regex : Option JsRegex := none

/-- The bound configuration held by an IntegerValidator instance. -/
structure IntegerValidatorState where
  minValue : Option ℚ := none
  maxValue : Option ℚ := none

/-- The length-bound configuration held by an ArrayValidator instance
(its nested element provider is carried separately). -/
structure ArrayBounds where
  minLength : Option ℚ := none
  maxLength : Option ℚ := none

/-- Regex stage of the compiled string checker (the last check in
StringValidator.provide). -/
def StringValidator_checkRegex (st : StringValidatorState) (v : String)
    (name : String) : Except JsError Unit :=
  match st.regex with
  | some r =>
      if r.test v then .ok ()
      else .error (.error ("Expected " ++ name ++ " to match " ++ r.source
        ++ ", but got value " ++ v ++ "."))
  | none => .ok ()

/-- Maximum-length stage of the compiled string checker. -/
def StringValidator_checkMax (st : StringValidatorState) (v : String)
    (name : String) : Except JsError Unit :=
  match st.maxLength with
  | some M =>
      if (jsStrLen v : ℚ) > M then
        .error (.error ("Expected " ++ name ++ " to be shorter than or equal to "
          ++ jsNumToString M ++ ", but got length of " ++ toString (jsStrLen v) ++ "."))
      else StringValidator_checkRegex st v name
  | none => StringValidator_checkRegex st v name

/-- Minimum-length stage of the compiled string checker. -/
def StringValidator_checkMin (st : StringValidatorState) (v : String)
    (name : String) : Except JsError Unit :=
  match st.minLength with
  | some m =>
      if (jsStrLen v : ℚ) < m then
        .error (.error ("Expected " ++ name ++ " to be longer than or equal to "
          ++ jsNumToString m ++ ", but got length of " ++ toString (jsStrLen v) ++ "."))
      else StringValidator_checkMax st v name
  | none => StringValidator_checkMax st v name

/-- The checker returned by StringValidator.provide: rejects non-strings
with a type-mismatch error, trims the string, then checks minimum length,
maximum length and regex, in that order, throwing on the first
violation. -/
def StringValidator_check (st : StringValidatorState) (value : JsValue)
    (name : String) : Except JsError Unit :=
  match value with
  | .str s => StringValidator_checkMin st (jsTrim s) name
  | v => .error (.error ("Expected " ++ name ++ " to be a string, but got "
      ++ jsTypeof v ++ "."))

/-- StringValidator.withMinLength: rejects a negative length, then stores
the bound, then throws if it exceeds an already-set maximum. The returned
state is the state of the mutable validator after the call, also when the
call throws. -/
def StringValidator_withMinLength (len : ℚ) (st : StringValidatorState) :
    StringValidatorState × Option JsError :=
  if len < 0 then (st, some (.error "String length can\x27t be lower than 0"))
  else
    let st2 := { st with minLength := some len }
    match st2.maxLength with
    | some M =>
        if M < len then
          (st2, some (.error ("Specified a min length (" ++ jsNumToString len
            ++ ") greater than the previously specified max length ("
            ++ jsNumToString M ++ ")")))
        else (st2, none)
    | none => (st2, none)

/-- StringValidator.withMaxLength: rejects a negative length, then stores
the bound, then throws if it is below an already-set minimum. -/
def StringValidator_withMaxLength (len : ℚ) (st : StringValidatorState) :
    StringValidatorState × Option JsError :=
  if len < 0 then (st, some (.error "String length can\x27t be lower than 0"))
  else
    let st2 := { st with maxLength := some len }
    match st2.minLength with
    | some m =>
        if len < m then
          (st2, some (.error ("Specified a max length (" ++ jsNumToString len
            ++ ") lower than the previously specified min length ("
            ++ jsNumToString m ++ ")")))
        else (st2, none)
    | none => (st2, none)

/-- StringValidator.matching: stores the regex; never throws. -/
def StringValidator_matching (r : JsRegex) (st : StringValidatorState) :
    StringValidatorState :=
  { st with regex := some r }

/-- Maximum-value stage of the compiled integer checker. The message text
reproduces the source, which reuses the greater-than-or-equal wording for
the maximum bound. -/
def IntegerValidator_checkMax (st : IntegerValidatorState) (v : ℚ)
    (name : String) : Except JsError Unit :=
  match st.maxValue with
  | some M =>
      if v > M then
        .error (.error ("Expected " ++ name ++ " to be greater than or equal to "
          ++ jsNumToString M ++ ", but got " ++ jsNumToString v ++ "."))
      else .ok ()
  | none => .ok ()

/-- Minimum-value stage of the compiled integer checker. -/
def IntegerValidator_checkMin (st : IntegerValidatorState) (v : ℚ)
    (name : String) : Except JsError Unit :=
  match st.minValue with
  | some m =>
      if v < m then
        .error (.error ("Expected " ++ name ++ " to be greater than or equal to "
          ++ jsNumToString m ++ ", but got " ++ jsNumToString v ++ "."))
      else IntegerValidator_checkMax st v name
  | none => IntegerValidator_checkMax st v name

/-- The checker returned by IntegerValidator.provide: rejects values whose
typeof is not number, rejects values whose textual form contains a decimal
point, then checks the minimum and maximum bounds inclusively. -/
def IntegerValidator_check (st : IntegerValidatorState) (value : JsValue)
    (name : String) : Except JsError Unit :=
  match value with
  | .num v =>
      if jsHasDot v then
        .error (.error ("Expected " ++ name ++ " to be an integer, but got floating number."))
      else IntegerValidator_checkMin st v name
  | v => .error (.error ("Expected " ++ name ++ " to be an integer, but got "
      ++ jsTypeof v ++ "."))

/-- IntegerValidator.withMinValue: stores the bound, then throws if it
exceeds an already-set maximum. -/
def IntegerValidator_withMinValue (v : ℚ) (st : IntegerValidatorState) :
    IntegerValidatorState × Option JsError :=
  let st2 := { st with minValue := some v }
  match st2.maxValue with
  | some M =>
      if M < v then
        (st2, some (.error ("Specified a min value (" ++ jsNumToString v
          ++ ") greater than the previously specified max value ("
          ++ jsNumToString M ++ ")")))
      else (st2, none)
  | none => (st2, none)

/-- IntegerValidator.withMaxValue: stores the bound, then throws if it is
below an already-set minimum. -/
def IntegerValidator_withMaxValue (v : ℚ) (st : IntegerValidatorState) :
    IntegerValidatorState × Option JsError :=
  let st2 := { st with maxValue := some v }
  match st2.minValue with
  | some m =>
      if v < m then
        (st2, some (.error ("Specified a max value (" ++ jsNumToString v
          ++ ") lower than the previously specified min value ("
          ++ jsNumToString m ++ ")")))
      else (st2, none)
  | none => (st2, none)

/-- ArrayValidator.withMinLength: rejects a negative length, then stores
the bound, then throws if it exceeds an already-set maximum. -/
def ArrayValidator_withMinLength (len : ℚ) (st : ArrayBounds) :
    ArrayBounds × Option JsError :=
  if len < 0 then (st, some (.error "Array length can\x27t be lower than 0"))
  else
    let st2 := { st with minLength := some len }
    match st2.maxLength with
    | some M =>
        if M < len then
          (st2, some (.error ("Specified a min length (" ++ jsNumToString len
            ++ ") greater than the previously specified max length ("
            ++ jsNumToString M ++ ")")))
        else (st2, none)
    | none => (st2, none)

/-- ArrayValidator.withMaxLength: rejects a negative length, then stores
the bound, then throws if it is below an already-set minimum. -/
def ArrayValidator_withMaxLength (len : ℚ) (st : ArrayBounds) :
    ArrayBounds × Option JsError :=
  if len < 0 then (st, some (.error "Array length can\x27t be lower than 0"))
  else
    let st2 := { st with maxLength := some len }
    match st2.minLength with
    | some m =>
        if len < m then
          (st2, some (.error ("Specified a max length (" ++ jsNumToString len
            ++ ") lower than the previously specified min length ("
            ++ jsNumToString m ++ ")")))
        else (st2, none)
    | none => (st2, none)

/-- Modelled from the spec: the compiled Boolean checker. The repository
implements toBeBoolean only in a revision whose validation sources are not
in the snapshot (the steps interface declares it and the controllers call
it); per the spec the Boolean provider has no bounds and checks the value
is a boolean. -/
def BooleanValidator_check (value : JsValue) (name : String) : Except JsError Unit :=
  match value with
  | .bool _ => .ok ()
  | v => .error (.error ("Expected " ++ name ++ " to be a boolean, but got "
      ++ jsTypeof v ++ "."))

/-- Modelled from the spec: the compiled DateTime checker. The repository
implements toBeDateTime only in a revision whose validation sources are
not in the snapshot; per the spec and the steps interface it checks the
value is a string with a proper ISO datetime format. The format test of
the host datetime library is embedded as a Boolean function the model is
parameterized by. -/
def DateTimeValidator_check (iso : String → Bool) (value : JsValue)
    (name : String) : Except JsError Unit :=
  match value with
  | .str s =>
      if iso s then .ok ()
      else .error (.error ("Expected " ++ name ++ " to be an ISO datetime string."))
  | v => .error (.error ("Expected " ++ name ++ " to be an ISO datetime string, but got "
      ++ jsTypeof v ++ "."))

/-- A ConstraintProvider: the per-kind bound configuration a validator
object holds when its field is sealed. An ArrayValidator may not have
received an element provider yet, hence the Option on the element. The
Boolean and DateTime variants are modelled from the spec (their
implementation is not in the snapshot). -/
inductive Provider where
  | string (st : StringValidatorState)
  | integer (st : IntegerValidatorState)
  | array (bounds : ArrayBounds) (elem : Option Provider)
  | boolean
  | datetime (iso : String → Bool)

/-- The element loop of the compiled array checker: applies the compiled
element checker to every element in index order, extending the displayed
name with the numeric index, stopping at the first failing element. -/
def runElements (ev : JsValue → String → Except JsError Unit) (name : String) :
    ℕ → List JsValue → Except JsError Unit
  | _, [] => .ok ()
  | i, x :: xs =>
      match ev x (name ++ "." ++ toString i) with
      | .error e => .error e
      | .ok _ => runElements ev name (i + 1) xs

/-- Maximum-length stage of the compiled array checker. The bound messages
reproduce the source (which names no field and omits the final period). -/
def ArrayValidator_checkMax (bounds : ArrayBounds)
    (ev : JsValue → String → Except JsError Unit) (xs : List JsValue)
    (name : String) : Except JsError Unit :=
  match bounds.maxLength with
  | some M =>
      if (xs.length : ℚ) > M then
        .error (.error ("Expected array length to be lower than " ++ jsNumToString M
          ++ " but got " ++ toString xs.length))
      else runElements ev name 0 xs
  | none => runElements ev name 0 xs

/-- Minimum-length stage of the compiled array checker. -/
def ArrayValidator_checkMin (bounds : ArrayBounds)
    (ev : JsValue → String → Except JsError Unit) (xs : List JsValue)
    (name : String) : Except JsError Unit :=
  match bounds.minLength with
  | some m =>
      if (xs.length : ℚ) < m then
        .error (.error ("Expected array length to be greater than " ++ jsNumToString m
          ++ " but got " ++ toString xs.length))
      else ArrayValidator_checkMax bounds ev xs name
  | none => ArrayValidator_checkMax bounds ev xs name

/-- The checker returned by ArrayValidator.provide, given the compiled
checker of the nested element provider: rejects values that are not
arrays, checks the length bounds inclusively, then validates every
element in index order. -/
def ArrayValidator_check (bounds : ArrayBounds)
    (ev : JsValue → String → Except JsError Unit) (value : JsValue)
    (name : String) : Except JsError Unit :=
  match value with
  | .arr xs => ArrayValidator_checkMin bounds ev xs name
  | v => .error (.error ("Expected " ++ name ++ " to be an array, but got "
      ++ jsTypeof v ++ "."))

/-- provide() of a ConstraintProvider: compiles the provider into its
check function. An ArrayValidator eagerly compiles its nested element
provider; if none was ever attached, the non-null assertion on it fails
with a TypeError at compile (seal) time, exactly as in the source. -/
def provide : Provider → Except JsError (JsValue → String → Except JsError Unit)
  | .string st => .ok (StringValidator_check st)
  | .integer st => .ok (IntegerValidator_check st)
  | .boolean => .ok BooleanValidator_check
  | .datetime iso => .ok (DateTimeValidator_check iso)
  | .array _ none => .error (.typeError "Cannot read property provide of undefined")
  | .array bounds (some p) =>
      match provide p with
      | .error e => .error e
      | .ok ev => .ok (ArrayValidator_check bounds ev)

/-- A sealed field checker, as pushed on the checkers list by
ValidatorBuilder.finishCurrent: the raw dotted path, the parsed path, the
required flag and the compiled check function of the provider. -/
structure FieldSpec where
  fullPath : String
  path : List String
  required : Bool
  check : JsValue → String → Except JsError Unit

/-- The closure pushed by finishCurrent for one field: a null body fails a
required field and is skipped by an optional one; otherwise the value is
resolved from the body along the parsed path, an undefined result fails a
required field and is skipped by an optional one, and any other value is
passed to the compiled provider check under the raw dotted name. -/
def fieldCheck (f : FieldSpec) (body : JsValue) : Except JsError Unit :=
  match body with
  | .null =>
      if f.required then
        .error (.error (f.fullPath ++ " is required, but got an empty body."))
      else .ok ()
  | _ =>
      match extractValue body f.path with
      | .error e => .error e
      | .ok value =>
          match value with
          | .undefined =>
              if f.required then
                .error (.error (f.fullPath ++ " is required, but it can\x27t be found in body."))
              else .ok ()
          | _ => f.check value f.fullPath

/-- The checker loop of validate: runs the sealed field checkers in
declaration order, stopping at the first thrown error. -/
def runCheckers (fields : List FieldSpec) (body : JsValue) : Except JsError Unit :=
  match fields with
  | [] => .ok ()
  | f :: rest =>
      match fieldCheck f body with
      | .error e => .error e
      | .ok _ => runCheckers rest body

/-- ValidationResult of src/validation/steps.ts: a tagged union of success
carrying the value and failure carrying the error. -/
inductive ValidationResult where
  | valid (value : JsValue)
  | invalid (error : JsError)

/-- validate of the built Validator: runs all checkers inside a try/catch;
any thrown error becomes the invalid result, and exhausting the checkers
yields the valid result carrying the original body. -/
def validate (fields : List FieldSpec) (body : JsValue) : ValidationResult :=
  match runCheckers fields body with
  | .ok _ => .valid body
  | .error e => .invalid e

/-- The ValueConfig of the builder: the currently open field. The zipper
of the fluent chain is kept explicitly: the length bounds of the array
providers opened by toBeArray (outermost first) and the innermost
non-array provider the chain is currently configuring (none right after
requires or optional, and none right after toBeArray). -/
structure OpenConfig where
  fullPath : String
  path : List String
  required : Bool
  frames : List ArrayBounds := []
  focus : Option Provider := none

/-- The mutable state of a ValidatorBuilder: the sealed field checkers in
declaration order and the configuration of the currently open field. -/
structure BuilderState where
  checkers : List FieldSpec := []
  config : Option OpenConfig := none

/-- Folds the open array providers of the zipper around the innermost
provider, recovering the provider tree of the open field: each open array
becomes an array provider whose element is the next layer in. -/
def assembleProvider (frames : List ArrayBounds) (focus : Option Provider) :
    Option Provider :=
  frames.foldr (fun fr acc => some (.array fr acc)) focus

/-- ValidatorBuilder.finishCurrent: does nothing when no field is open;
otherwise compiles the provider of the open field (the non-null assertion
on a missing provider, or on a missing array element provider, surfaces as
a TypeError), appends the sealed checker to the list and clears the open
field. -/
def ValidatorBuilder_finishCurrent (b : BuilderState) : Except JsError BuilderState :=
  match b.config with
  | none => .ok b
  | some cfg =>
      match assembleProvider cfg.frames cfg.focus with
      | none => .error (.typeError "Cannot read property provide of undefined")
      | some prov =>
          match provide prov with
          | .error e => .error e
          | .ok checker =>
              .ok { checkers := b.checkers ++ [⟨cfg.fullPath, cfg.path, cfg.required, checker⟩],
                    config := none }

/-- ValidatorBuilder.new: a fresh builder with no checkers and no open
field. -/
def ValidatorBuilder_new : BuilderState := {}

/-- ValidatorBuilder.requires: seals the currently open field, parses the
path and opens a new required field. A parse failure is thrown after the
seal, leaving no open field. -/
def ValidatorBuilder_requires (path : String) (b : BuilderState) :
    BuilderState × Option JsError :=
  match ValidatorBuilder_finishCurrent b with
  | .error e => (b, some e)
  | .ok b1 =>
      match parsePath path with
      | .error e => (b1, some e)
      | .ok p => ({ b1 with config := some ⟨path, p, true, [], none⟩ }, none)

/-- ValidatorBuilder.optional: as requires, but the new field is
optional. -/
def ValidatorBuilder_optional (path : String) (b : BuilderState) :
    BuilderState × Option JsError :=
  match ValidatorBuilder_finishCurrent b with
  | .error e => (b, some e)
  | .ok b1 =>
      match parsePath path with
      | .error e => (b1, some e)
      | .ok p => ({ b1 with config := some ⟨path, p, false, [], none⟩ }, none)

/-- toBeString (on the root builder or, after withEachElement, on an open
array provider): attaches a fresh StringValidator as the innermost
provider of the open field. Calling it with no open field is
unrepresentable through the staged interfaces and leaves the model state
unchanged. -/
def ValidatorBuilder_toBeString (b : BuilderState) : BuilderState :=
  match b.config with
  | some cfg => { b with config := some { cfg with focus := some (.string {}) } }
  | none => b

/-- toBeInteger: attaches a fresh IntegerValidator as the innermost
provider of the open field. -/
def ValidatorBuilder_toBeInteger (b : BuilderState) : BuilderState :=
  match b.config with
  | some cfg => { b with config := some { cfg with focus := some (.integer {}) } }
  | none => b

/-- toBeArray: attaches a fresh ArrayValidator (no bounds, no element
provider yet) as the innermost provider of the open field, opening one
more zipper layer. -/
def ValidatorBuilder_toBeArray (b : BuilderState) : BuilderState :=
  match b.config with
  | some cfg =>
      { b with config := some { cfg with frames := cfg.frames ++ [{}], focus := none } }
  | none => b

/-- Modelled from the spec: toBeBoolean attaches the Boolean provider (no
bounds) to the open field. The implementation is not in the snapshot (the
steps interface declares it and the controllers call it). -/
def ValidatorBuilder_toBeBoolean (b : BuilderState) : BuilderState :=
  match b.config with
  | some cfg => { b with config := some { cfg with focus := some .boolean } }
  | none => b

/-- Modelled from the spec: toBeDateTime attaches the DateTime provider,
whose check is the ISO format test of the host datetime library, embedded
as the Boolean function the model is parameterized by. -/
def ValidatorBuilder_toBeDateTime (iso : String → Bool) (b : BuilderState) :
    BuilderState :=
  match b.config with
  | some cfg => { b with config := some { cfg with focus := some (.datetime iso) } }
  | none => b

/-- ArrayValidator.withEachElement: returns the same object seen as a
TypeStep; the builder state does not change. -/
def ValidatorBuilder_withEachElement (b : BuilderState) : BuilderState := b

/-- Applies a bound setter to the innermost open array provider of the
zipper (the object the fluent chain is currently addressing). -/
def updateLastFrame (f : ArrayBounds → ArrayBounds × Option JsError) :
    List ArrayBounds → List ArrayBounds × Option JsError
  | [] => ([], none)
  | [fr] => ((f fr).1 :: [], (f fr).2)
  | fr :: fr2 :: rest =>
      let r := updateLastFrame f (fr2 :: rest)
      (fr :: r.1, r.2)

/-- withMinLength on the StringStep of the fluent chain: mutates the
StringValidator currently in focus. -/
def StringStep_withMinLength (len : ℚ) (b : BuilderState) :
    BuilderState × Option JsError :=
  match b.config with
  | some cfg =>
      match cfg.focus with
      | some (.string st) =>
          let r := StringValidator_withMinLength len st
          ({ b with config := some { cfg with focus := some (.string r.1) } }, r.2)
      | _ => (b, none)
  | none => (b, none)

/-- withMaxLength on the StringStep of the fluent chain. -/
def StringStep_withMaxLength (len : ℚ) (b : BuilderState) :
    BuilderState × Option JsError :=
  match b.config with
  | some cfg =>
      match cfg.focus with
      | some (.string st) =>
          let r := StringValidator_withMaxLength len st
          ({ b with config := some { cfg with focus := some (.string r.1) } }, r.2)
      | _ => (b, none)
  | none => (b, none)

/-- matching on the StringStep of the fluent chain; never throws. -/
def StringStep_matching (r : JsRegex) (b : BuilderState) : BuilderState :=
  match b.config with
  | some cfg =>
      match cfg.focus with
      | some (.string st) =>
          { b with config := some { cfg with focus := some (.string (StringValidator_matching r st)) } }
      | _ => b
  | none => b

/-- withMinValue on the IntegerStep of the fluent chain. -/
def IntegerStep_withMinValue (v : ℚ) (b : BuilderState) :
    BuilderState × Option JsError :=
  match b.config with
  | some cfg =>
      match cfg.focus with
      | some (.integer st) =>
          let r := IntegerValidator_withMinValue v st
          ({ b with config := some { cfg with focus := some (.integer r.1) } }, r.2)
      | _ => (b, none)
  | none => (b, none)

/-- withMaxValue on the IntegerStep of the fluent chain. -/
def IntegerStep_withMaxValue (v : ℚ) (b : BuilderState) :
    BuilderState × Option JsError :=
  match b.config with
  | some cfg =>
      match cfg.focus with
      | some (.integer st) =>
          let r := IntegerValidator_withMaxValue v st
          ({ b with config := some { cfg with focus := some (.integer r.1) } }, r.2)
      | _ => (b, none)
  | none => (b, none)

/-- withMinLength on the ArrayStep of the fluent chain: mutates the
innermost open array provider. -/
def ArrayStep_withMinLength (len : ℚ) (b : BuilderState) :
    BuilderState × Option JsError :=
  match b.config with
  | some cfg =>
      let r := updateLastFrame (ArrayValidator_withMinLength len) cfg.frames
      ({ b with config := some { cfg with frames := r.1 } }, r.2)
  | none => (b, none)

/-- withMaxLength on the ArrayStep of the fluent chain. -/
def ArrayStep_withMaxLength (len : ℚ) (b : BuilderState) :
    BuilderState × Option JsError :=
  match b.config with
  | some cfg =>
      let r := updateLastFrame (ArrayValidator_withMaxLength len) cfg.frames
      ({ b with config := some { cfg with frames := r.1 } }, r.2)
  | none => (b, none)

/-- ValidatorBuilder.build: seals the open field, if any, and freezes the
checker list into the validator. -/
def ValidatorBuilder_build (b : BuilderState) : Except JsError (List FieldSpec) :=
  match ValidatorBuilder_finishCurrent b with
  | .error e => .error e
  | .ok b2 => .ok b2.checkers

/-- Sequencing of two fluent calls where the second may throw: the second
call happens only if the first one did not throw. -/
def andThenB (r : BuilderState × Option JsError)
    (f : BuilderState → BuilderState × Option JsError) :
    BuilderState × Option JsError :=
  match r with
  | (b, none) => f b
  | (b, some e) => (b, some e)

/-- Sequencing of two fluent calls where the second never throws. -/
def andThenP (r : BuilderState × Option JsError) (f : BuilderState → BuilderState) :
    BuilderState × Option JsError :=
  match r with
  | (b, none) => (f b, none)
  | (b, some e) => (b, some e)

/-- build() at the end of a fluent chain: an error thrown anywhere in the
chain propagates; otherwise the builder is sealed and frozen. -/
def buildChain (r : BuilderState × Option JsError) : Except JsError (List FieldSpec) :=
  match r with
  | (b, none) => ValidatorBuilder_build b
  | (_, some e) => .error e

/-- Builds the chain and validates a body with the resulting validator;
an error thrown during construction propagates and validate never runs. -/
def validateChain (r : BuilderState × Option JsError) (body : JsValue) :
    Except JsError ValidationResult :=
  match buildChain r with
  | .ok fields => .ok (validate fields body)
  | .error e => .error e

/-- The schema requires(address.num).toBeInteger().withMinValue(0).withMaxValue(500)
of the spec scenarios. -/
def addressNumChain : BuilderState × Option JsError :=
  andThenB (andThenB (andThenP
    (ValidatorBuilder_requires "address.num" ValidatorBuilder_new)
    ValidatorBuilder_toBeInteger)
    (IntegerStep_withMinValue 0))
    (IntegerStep_withMaxValue 500)

/-- The schema requires(matrix).toBeArray().withEachElement().toBeArray()
.withEachElement().toBeInteger().withMinValue(0) of the spec scenarios
(a matrix of non-negative integers). -/
def matrixChain : BuilderState × Option JsError :=
  andThenB (andThenP (andThenP (andThenP (andThenP (andThenP
    (ValidatorBuilder_requires "matrix" ValidatorBuilder_new)
    ValidatorBuilder_toBeArray)
    ValidatorBuilder_withEachElement)
    ValidatorBuilder_toBeArray)
    ValidatorBuilder_withEachElement)
    ValidatorBuilder_toBeInteger)
    (IntegerStep_withMinValue 0)

/-- The schema requires(username).toBeString().withMinLength(5) of the
spec scenarios. -/
def usernameMin5Chain : BuilderState × Option JsError :=
  andThenB (andThenP
    (ValidatorBuilder_requires "username" ValidatorBuilder_new)
    ValidatorBuilder_toBeString)
    (StringStep_withMinLength 5)

/-- The anchored literal regex of the spec scenarios, with source text
caret abcd dollar: its host matching function accepts exactly the string
abcd. -/
def regexAbcd : JsRegex :=
  { source := "^abcd$", test := fun s => s == "abcd" }

/-- The schema requires(name).toBeString().matching(regexAbcd) of the spec
scenarios. -/
def nameAbcdChain : BuilderState × Option JsError :=
  andThenP (andThenP
    (ValidatorBuilder_requires "name" ValidatorBuilder_new)
    ValidatorBuilder_toBeString)
    (StringStep_matching regexAbcd)

/-- A schema with a single optional string field. -/
def testOptionalChain : BuilderState × Option JsError :=
  andThenP
    (ValidatorBuilder_optional "test" ValidatorBuilder_new)
    ValidatorBuilder_toBeString

/-- The schema requires(a.b.c).toBeInteger(): resolving a.b.c against a
body whose property a is null makes extractValue throw a TypeError. -/
def abcIntChain : BuilderState × Option JsError :=
  andThenP
    (ValidatorBuilder_requires "a.b.c" ValidatorBuilder_new)
    ValidatorBuilder_toBeInteger

/-- The chain optional(test).toBeString().withMinLength(5).withMaxLength(4)
of the bound-symmetry scenario: the second setter throws during schema
construction. -/
def stringConflictChain : BuilderState × Option JsError :=
  andThenB (andThenB (andThenP
    (ValidatorBuilder_optional "test" ValidatorBuilder_new)
    ValidatorBuilder_toBeString)
    (StringStep_withMinLength 5))
    (StringStep_withMaxLength 4)

/-- The schema requires(a. b).toBeInteger(): the path string has a space
after the dot, so the stored segment list keeps the untrimmed segment. -/
def aSpaceBChain : BuilderState × Option JsError :=
  andThenP
    (ValidatorBuilder_requires "a. b" ValidatorBuilder_new)
    ValidatorBuilder_toBeInteger

/-- The JavaScript instanceof Array test of the value model. -/
def instanceofArray : JsValue → Bool
  | .arr _ => true
  | _ => false

/-
  Helper lemmas shared by the claim theorems.
-/

/-- A container whose typeof is not the string object ends path resolution
with undefined, whatever segments remain. -/
theorem extractValue_not_object (v : JsValue) (path : List String)
    (h : isObjectTypeof v = false) : extractValue v path = .ok .undefined := by
  cases path with
  | nil => rfl
  | cons k rest =>
    cases rest with
    | nil => simp [extractValue, h]
    | cons k2 rest2 => simp [extractValue, h]

/-- Resolution against the empty object yields undefined for every path. -/
theorem extractValue_empty_obj (path : List String) :
    extractValue (.obj []) path = .ok .undefined := by
  cases path with
  | nil => rfl
  | cons k rest =>
    cases rest with
    | nil => rfl
    | cons k2 rest2 => exact extractValue_not_object .undefined (k2 :: rest2) rfl

/-- A field checker passes the null body when its field is optional. -/
theorem fieldCheck_null_optional (f : FieldSpec) (h : f.required = false) :
    fieldCheck f .null = .ok () := by
  simp [fieldCheck, h]

/-- A field checker passes the empty-object body when its field is
optional. -/
theorem fieldCheck_empty_optional (f : FieldSpec) (h : f.required = false) :
    fieldCheck f (.obj []) = .ok () := by
  simp [fieldCheck, extractValue_empty_obj, h]

/-- The checker loop passes the null body when every field is optional. -/
theorem runCheckers_optional_null (fields : List FieldSpec)
    (h : ∀ f ∈ fields, f.required = false) : runCheckers fields .null = .ok () := by
  induction fields with
  | nil => rfl
  | cons f rest ih =>
      have hf : f.required = false := h f (by simp)
      have hrest : ∀ g ∈ rest, g.required = false := fun g hg => h g (by simp [hg])
      simp [runCheckers, fieldCheck_null_optional f hf, ih hrest]

/-- The checker loop passes the empty-object body when every field is
optional. -/
theorem runCheckers_optional_empty (fields : List FieldSpec)
    (h : ∀ f ∈ fields, f.required = false) : runCheckers fields (.obj []) = .ok () := by
  induction fields with
  | nil => rfl
  | cons f rest ih =>
      have hf : f.required = false := h f (by simp)
      have hrest : ∀ g ∈ rest, g.required = false := fun g hg => h g (by simp [hg])
      simp [runCheckers, fieldCheck_empty_optional f hf, ih hrest]

/-- The checker loop fails the null body as soon as some field is
required. -/
theorem runCheckers_required_null (fields : List FieldSpec)
    (h : ∃ f ∈ fields, f.required = true) : ∃ e, runCheckers fields .null = .error e := by
  induction fields with
  | nil => simp at h
  | cons f rest ih =>
      by_cases hf : f.required = true
      · refine ⟨.error (f.fullPath ++ " is required, but got an empty body."), ?_⟩
        simp [runCheckers, fieldCheck, hf]
      · have hf' : f.required = false := by
          cases hfr : f.required with
          | true => exact absurd hfr hf
          | false => rfl
        obtain ⟨g, hg, hgr⟩ := h
        rcases List.mem_cons.mp hg with hgf | hgrest
        · subst hgf; exact absurd hgr hf
        · obtain ⟨e, he⟩ := ih ⟨g, hgrest, hgr⟩
          exact ⟨e, by simp [runCheckers, fieldCheck_null_optional f hf', he]⟩

/-
  Claim theorems.
-/

/-- Claim C1: validate runs the compiled field checkers in declaration
order; a checker whose path resolves to undefined fails a required field
with the required-but-missing error and passes an optional one; the first
error raised by any checker aborts the remaining checkers and is returned
as the invalid result; exhausting all checkers yields the valid result
carrying the original raw input. A schema with only optional fields
accepts both the null body and the empty object, and a schema with at
least one required field rejects the null body. -/
theorem claim1_validate_fail_fast (fields : List FieldSpec) (body : JsValue) :
    (validate fields body = match runCheckers fields body with
      | .ok _ => .valid body
      | .error e => .invalid e)
  ∧ (∀ f rest, runCheckers (f :: rest) body = match fieldCheck f body with
      | .error e => .error e
      | .ok _ => runCheckers rest body)
  ∧ (∀ f : FieldSpec, body ≠ .null → extractValue body f.path = .ok .undefined →
      fieldCheck f body = if f.required then
        .error (.error (f.fullPath ++ " is required, but it can\x27t be found in body."))
      else .ok ())
  ∧ ((∀ f ∈ fields, f.required = false) →
      validate fields .null = .valid .null ∧ validate fields (.obj []) = .valid (.obj []))
  ∧ ((∃ f ∈ fields, f.required = true) → ∃ e, validate fields .null = .invalid e) := by
  refine ⟨rfl, fun f rest => rfl, ?_, ?_, ?_⟩
  · intro f hne hex
    cases body with
    | null => exact absurd rfl hne
    | undefined => simp [fieldCheck, hex]
    | bool b => simp [fieldCheck, hex]
    | num q => simp [fieldCheck, hex]
    | str s => simp [fieldCheck, hex]
    | arr xs => simp [fieldCheck, hex]
    | obj fs => simp [fieldCheck, hex]
  · intro h
    exact ⟨by simp [validate, runCheckers_optional_null fields h],
           by simp [validate, runCheckers_optional_empty fields h]⟩
  · intro h
    obtain ⟨e, he⟩ := runCheckers_required_null fields h
    exact ⟨e, by simp [validate, he]⟩

/-- Witness for claim C1 at a concrete validator: a single optional string
field accepts the null body and the empty object. -/
theorem claim1_witness :
    validate [⟨"test", ["test"], false, StringValidator_check {}⟩] .null = .valid .null
  ∧ validate [⟨"test", ["test"], false, StringValidator_check {}⟩] (.obj []) = .valid (.obj []) :=
  (claim1_validate_fail_fast [⟨"test", ["test"], false, StringValidator_check {}⟩] .null).2.2.2.1
    (by intro f hf; rw [List.mem_singleton] at hf; subst hf; rfl)

/-- Counterexample to claim C2 as stated: resolution is claimed never to
raise, and to treat a null intermediate container like a missing one, but
resolving a.b.c against an object whose property a is null throws a
TypeError (typeof null is the string object, so null passes the container
guard and the property access on it throws), while the same path against
the empty object yields the not-found outcome. -/
theorem claim2_counterexample :
    extractValue (.obj [("a", .null)]) ["a", "b", "c"]
      = .error (.typeError "Cannot read property b of null")
  ∧ extractValue (.obj []) ["a", "b", "c"] = .ok .undefined :=
  ⟨rfl, rfl⟩

/-- Claim C2 as amended: path resolution walks the segments one at a time
and stops with the not-found outcome (undefined, never an error) whenever
the current container has a typeof other than the string object, which
covers undefined and every primitive; resolving a.b.c against the empty
object and against an object with an empty nested object both yield
not-found. A null container, however, has typeof object, so resolution
attempts the property access and throws a TypeError instead of yielding
not-found. -/
theorem claim2_extract_stops (root : JsValue) (segs : List String)
    (h : isObjectTypeof root = false) :
    extractValue root segs = .ok .undefined
  ∧ (∀ (v : JsValue) (k k2 : String) (rest : List String),
      extractValue v (k :: k2 :: rest) = if isObjectTypeof v then
        match getProp v k with
        | .error e => .error e
        | .ok w => extractValue w (k2 :: rest)
      else .ok .undefined)
  ∧ extractValue (.obj []) ["a", "b", "c"] = .ok .undefined
  ∧ extractValue (.obj [("a", .obj [])]) ["a", "b", "c"] = .ok .undefined
  ∧ extractValue (.obj [("a", .null)]) ["a", "b", "c"]
      = .error (.typeError "Cannot read property b of null") :=
  ⟨extractValue_not_object root segs h, fun _ _ _ _ => rfl, rfl, rfl, rfl⟩

/-- Witness for claim C2 as amended: a numeric container is not an object,
so resolution against it yields undefined. -/
theorem claim2_witness :
    isObjectTypeof (.num 5) = false
  ∧ extractValue (.num 5) ["x"] = .ok .undefined :=
  ⟨rfl, (claim2_extract_stops (.num 5) ["x"] rfl).1⟩

/-- Claim C3: from the TypeStep reached after a requires or optional call
(an open field with no provider and no open array), all five terminal-kind
transitions attach the matching ConstraintProvider to the open field:
toBeString a fresh StringValidator, toBeInteger a fresh IntegerValidator,
toBeArray a fresh ArrayValidator opening one zipper layer, toBeBoolean the
Boolean provider and toBeDateTime the DateTime provider. The Boolean
provider compiles to a checker with no bounds accepting exactly boolean
values, and the DateTime provider compiles to a checker accepting exactly
strings passing the ISO datetime format test. The Boolean and DateTime
parts are modelled from the spec, their implementation being absent from
the snapshot. -/
theorem claim3_type_step_transitions (b1 : BuilderState) (path : String)
    (p : List String) (req : Bool)
    (hcfg : b1.config = some ⟨path, p, req, [], none⟩) :
    (∀ b0 b2, ValidatorBuilder_requires path b0 = (b2, none) → parsePath path = .ok p →
      b2.config = some ⟨path, p, true, [], none⟩)
  ∧ (∀ b0 b2, ValidatorBuilder_optional path b0 = (b2, none) → parsePath path = .ok p →
      b2.config = some ⟨path, p, false, [], none⟩)
  ∧ (ValidatorBuilder_toBeString b1).config = some ⟨path, p, req, [], some (.string {})⟩
  ∧ (ValidatorBuilder_toBeInteger b1).config = some ⟨path, p, req, [], some (.integer {})⟩
  ∧ (ValidatorBuilder_toBeArray b1).config = some ⟨path, p, req, [{}], none⟩
  ∧ (ValidatorBuilder_toBeBoolean b1).config = some ⟨path, p, req, [], some .boolean⟩
  ∧ (∀ iso, (ValidatorBuilder_toBeDateTime iso b1).config
      = some ⟨path, p, req, [], some (.datetime iso)⟩)
  ∧ provide .boolean = .ok BooleanValidator_check
  ∧ (∀ iso, provide (.datetime iso) = .ok (DateTimeValidator_check iso))
  ∧ (∀ bv name, BooleanValidator_check (.bool bv) name = .ok ())
  ∧ (∀ v name, jsTypeof v ≠ "boolean" → BooleanValidator_check v name
      = .error (.error ("Expected " ++ name ++ " to be a boolean, but got "
        ++ jsTypeof v ++ ".")))
  ∧ (∀ iso s name, DateTimeValidator_check iso (.str s) name
      = if iso s then .ok ()
        else .error (.error ("Expected " ++ name ++ " to be an ISO datetime string.")))
  ∧ (∀ iso v name, jsTypeof v ≠ "string" → DateTimeValidator_check iso v name
      = .error (.error ("Expected " ++ name ++ " to be an ISO datetime string, but got "
        ++ jsTypeof v ++ "."))) := by
  refine ⟨?_, ?_, ?_, ?_, ?_, ?_, ?_, rfl, fun iso => rfl, fun bv name => rfl, ?_, ?_, ?_⟩
  · intro b0 b2 hreq hp
    unfold ValidatorBuilder_requires at hreq
    cases hfin : ValidatorBuilder_finishCurrent b0 with
    | error e => rw [hfin] at hreq; exact absurd (congrArg Prod.snd hreq) (by simp)
    | ok bf =>
        rw [hfin, hp] at hreq
        have := congrArg Prod.fst hreq
        simp at this
        rw [← this]
  · intro b0 b2 hopt hp
    unfold ValidatorBuilder_optional at hopt
    cases hfin : ValidatorBuilder_finishCurrent b0 with
    | error e => rw [hfin] at hopt; exact absurd (congrArg Prod.snd hopt) (by simp)
    | ok bf =>
        rw [hfin, hp] at hopt
        have := congrArg Prod.fst hopt
        simp at this
        rw [← this]
  · simp [ValidatorBuilder_toBeString, hcfg]
  · simp [ValidatorBuilder_toBeInteger, hcfg]
  · simp [ValidatorBuilder_toBeArray, hcfg]
  · simp [ValidatorBuilder_toBeBoolean, hcfg]
  · intro iso; simp [ValidatorBuilder_toBeDateTime, hcfg]
  · intro v name hv
    cases v with
    | bool bv => exact absurd rfl hv
    | null => rfl
    | undefined => rfl
    | num q => rfl
    | str s => rfl
    | arr xs => rfl
    | obj fs => rfl
  · intro iso s name; rfl
  · intro iso v name hv
    cases v with
    | str s => exact absurd rfl hv
    | null => rfl
    | undefined => rfl
    | bool bv => rfl
    | num q => rfl
    | arr xs => rfl
    | obj fs => rfl

/-- Witness for claim C3 at a concrete builder: after requires of the path
test, toBeBoolean attaches the Boolean provider to the open required
field. -/
theorem claim3_witness :
    (ValidatorBuilder_toBeBoolean
      ((ValidatorBuilder_requires "test" ValidatorBuilder_new).1)).config
      = some ⟨"test", ["test"], true, [], some .boolean⟩ :=
  (claim3_type_step_transitions
    ((ValidatorBuilder_requires "test" ValidatorBuilder_new).1)
    "test" ["test"] true rfl).2.2.2.2.2.1

/-- Claim C4: the compiled string checker performs its checks in order:
type mismatch first (with a message naming the field and the typeof of the
offending value), then trimming, then minimum length, then maximum length,
then regex, the first violation short-circuiting the rest. A numeric value
against a string field with a minimum length yields the type-mismatch
error, and a padded abcd satisfies a field required to match the anchored
regex for abcd. -/
theorem claim4_string_check_order (st : StringValidatorState) (s name : String) :
    (∀ v, jsTypeof v ≠ "string" → StringValidator_check st v name
      = .error (.error ("Expected " ++ name ++ " to be a string, but got "
        ++ jsTypeof v ++ ".")))
  ∧ StringValidator_check st (.str s) name = StringValidator_checkMin st (jsTrim s) name
  ∧ (∀ m, st.minLength = some m → ((jsStrLen (jsTrim s) : ℚ)) < m →
      StringValidator_check st (.str s) name = .error (.error ("Expected " ++ name
        ++ " to be longer than or equal to " ++ jsNumToString m
        ++ ", but got length of " ++ toString (jsStrLen (jsTrim s)) ++ ".")))
  ∧ (∀ M, (∀ m, st.minLength = some m → ¬((jsStrLen (jsTrim s) : ℚ) < m)) →
      st.maxLength = some M → ((jsStrLen (jsTrim s) : ℚ)) > M →
      StringValidator_check st (.str s) name = .error (.error ("Expected " ++ name
        ++ " to be shorter than or equal to " ++ jsNumToString M
        ++ ", but got length of " ++ toString (jsStrLen (jsTrim s)) ++ ".")))
  ∧ (∀ r, (∀ m, st.minLength = some m → ¬((jsStrLen (jsTrim s) : ℚ) < m)) →
      (∀ M, st.maxLength = some M → ¬((jsStrLen (jsTrim s) : ℚ) > M)) →
      st.regex = some r → r.test (jsTrim s) = false →
      StringValidator_check st (.str s) name = .error (.error ("Expected " ++ name
        ++ " to match " ++ r.source ++ ", but got value " ++ jsTrim s ++ ".")))
  ∧ ((∀ m, st.minLength = some m → ¬((jsStrLen (jsTrim s) : ℚ) < m)) →
      (∀ M, st.maxLength = some M → ¬((jsStrLen (jsTrim s) : ℚ) > M)) →
      (∀ r, st.regex = some r → r.test (jsTrim s) = true) →
      StringValidator_check st (.str s) name = .ok ())
  ∧ validateChain usernameMin5Chain (.obj [("username", .num 3)])
      = .ok (.invalid (.error "Expected username to be a string, but got number."))
  ∧ validateChain nameAbcdChain (.obj [("name", .str "  abcd  ")])
      = .ok (.valid (.obj [("name", .str "  abcd  ")])) := by
  refine ⟨?_, rfl, ?_, ?_, ?_, ?_, rfl, rfl⟩
  · intro v hv
    cases v with
    | str s2 => exact absurd rfl hv
    | null => rfl
    | undefined => rfl
    | bool bv => rfl
    | num q => rfl
    | arr xs => rfl
    | obj fs => rfl
  · intro m hm hlt
    simp [StringValidator_check, StringValidator_checkMin, hm, hlt]
  · intro M hminok hM hgt
    cases hm : st.minLength with
    | none =>
        simp [StringValidator_check, StringValidator_checkMin, StringValidator_checkMax,
          hm, hM, hgt]
    | some m =>
        simp [StringValidator_check, StringValidator_checkMin, StringValidator_checkMax,
          hm, hM, hgt, hminok m hm]
  · intro r hminok hmaxok hr htest
    cases hm : st.minLength with
    | none =>
        cases hMx : st.maxLength with
        | none =>
            simp [StringValidator_check, StringValidator_checkMin, StringValidator_checkMax,
              StringValidator_checkRegex, hm, hMx, hr, htest]
        | some M =>
            simp [StringValidator_check, StringValidator_checkMin, StringValidator_checkMax,
              StringValidator_checkRegex, hm, hMx, hr, htest, hmaxok M hMx]
    | some m =>
        cases hMx : st.maxLength with
        | none =>
            simp [StringValidator_check, StringValidator_checkMin, StringValidator_checkMax,
              StringValidator_checkRegex, hm, hMx, hr, htest, hminok m hm]
        | some M =>
            simp [StringValidator_check, StringValidator_checkMin, StringValidator_checkMax,
              StringValidator_checkRegex, hm, hMx, hr, htest, hminok m hm, hmaxok M hMx]
  · intro hminok hmaxok hregok
    cases hm : st.minLength with
    | none =>
        cases hMx : st.maxLength with
        | none =>
            cases hr : st.regex with
            | none =>
                simp [StringValidator_check, StringValidator_checkMin, StringValidator_checkMax,
                  StringValidator_checkRegex, hm, hMx, hr]
            | some r =>
                simp [StringValidator_check, StringValidator_checkMin, StringValidator_checkMax,
                  StringValidator_checkRegex, hm, hMx, hr, hregok r hr]
        | some M =>
            cases hr : st.regex with
            | none =>
                simp [StringValidator_check, StringValidator_checkMin, StringValidator_checkMax,
                  StringValidator_checkRegex, hm, hMx, hr, hmaxok M hMx]
            | some r =>
                simp [StringValidator_check, StringValidator_checkMin, StringValidator_checkMax,
                  StringValidator_checkRegex, hm, hMx, hr, hmaxok M hMx, hregok r hr]
    | some m =>
        cases hMx : st.maxLength with
        | none =>
            cases hr : st.regex with
            | none =>
                simp [StringValidator_check, StringValidator_checkMin, StringValidator_checkMax,
                  StringValidator_checkRegex, hm, hMx, hr, hminok m hm]
            | some r =>
                simp [StringValidator_check, StringValidator_checkMin, StringValidator_checkMax,
                  StringValidator_checkRegex, hm, hMx, hr, hminok m hm, hregok r hr]
        | some M =>
            cases hr : st.regex with
            | none =>
                simp [StringValidator_check, StringValidator_checkMin, StringValidator_checkMax,
                  StringValidator_checkRegex, hm, hMx, hr, hminok m hm, hmaxok M hMx]
            | some r =>
                simp [StringValidator_check, StringValidator_checkMin, StringValidator_checkMax,
                  StringValidator_checkRegex, hm, hMx, hr, hminok m hm, hmaxok M hMx, hregok r hr]

/-- Witness for claim C4 at a concrete checker: a string field with
minimum length 5 rejects the number 3 with the type-mismatch message, not
a length message. -/
theorem claim4_witness :
    StringValidator_check { minLength := some 5 } (.num 3) "username"
      = .error (.error "Expected username to be a string, but got number.") :=
  (claim4_string_check_order { minLength := some 5 } "" "username").1 (.num 3)
    (by simp [jsTypeof])

/-- Counterexample to claim C5 as stated: the claim says exact-integer
floats in the style of 1.0 are rejected by the decimal-separator test, but
in the numeric domain the literal 1.0 denotes the same number as 1, whose
textual form is the string 1 with no decimal separator, so the compiled
integer checker accepts it. -/
theorem claim5_counterexample :
    jsNumToString (1.0 : ℚ) = "1"
  ∧ jsHasDot (1.0 : ℚ) = false
  ∧ IntegerValidator_check {} (.num (1.0 : ℚ)) "age" = .ok () := by
  have h : (1.0 : ℚ) = 1 := by norm_num
  rw [h]
  exact ⟨rfl, rfl, rfl⟩

/-- Claim C5 as amended: the compiled integer checker rejects values whose
typeof is not number with a type-mismatch error, rejects values whose
textual form contains a decimal separator (such as 1.15) as floating
numbers — exact-integer floats such as 1.0 render without a separator and
pass this test — and enforces the minimum and maximum bounds inclusively
at both ends. A schema requiring address.num as an integer in the range 0
to 500 rejects the empty object, rejects an empty address object, accepts
the nested value 120 and rejects the nested value 750. -/
theorem claim5_integer_check (st : IntegerValidatorState) (name : String) :
    (∀ v, jsTypeof v ≠ "number" → IntegerValidator_check st v name
      = .error (.error ("Expected " ++ name ++ " to be an integer, but got "
        ++ jsTypeof v ++ ".")))
  ∧ (∀ q, jsHasDot q = true → IntegerValidator_check st (.num q) name
      = .error (.error ("Expected " ++ name ++ " to be an integer, but got floating number.")))
  ∧ IntegerValidator_check {} (.num (1.15 : ℚ)) "age"
      = .error (.error "Expected age to be an integer, but got floating number.")
  ∧ (∀ q m, jsHasDot q = false → st.minValue = some m → q < m →
      IntegerValidator_check st (.num q) name = .error (.error ("Expected " ++ name
        ++ " to be greater than or equal to " ++ jsNumToString m ++ ", but got "
        ++ jsNumToString q ++ ".")))
  ∧ (∀ q M, jsHasDot q = false → (∀ m, st.minValue = some m → ¬ q < m) →
      st.maxValue = some M → q > M →
      IntegerValidator_check st (.num q) name = .error (.error ("Expected " ++ name
        ++ " to be greater than or equal to " ++ jsNumToString M ++ ", but got "
        ++ jsNumToString q ++ ".")))
  ∧ (∀ q, jsHasDot q = false → (∀ m, st.minValue = some m → ¬ q < m) →
      (∀ M, st.maxValue = some M → ¬ q > M) →
      IntegerValidator_check st (.num q) name = .ok ())
  ∧ validateChain addressNumChain (.obj [])
      = .ok (.invalid (.error "address.num is required, but it can\x27t be found in body."))
  ∧ validateChain addressNumChain (.obj [("address", .obj [])])
      = .ok (.invalid (.error "address.num is required, but it can\x27t be found in body."))
  ∧ validateChain addressNumChain (.obj [("address", .obj [("num", .num 120)])])
      = .ok (.valid (.obj [("address", .obj [("num", .num 120)])]))
  ∧ validateChain addressNumChain (.obj [("address", .obj [("num", .num 750)])])
      = .ok (.invalid (.error "Expected address.num to be greater than or equal to 500, but got 750.")) := by
  refine ⟨?_, ?_, ?_, ?_, ?_, ?_, rfl, rfl, rfl, rfl⟩
  · intro v hv
    cases v with
    | num q => exact absurd rfl hv
    | null => rfl
    | undefined => rfl
    | bool bv => rfl
    | str s2 => rfl
    | arr xs => rfl
    | obj fs => rfl
  · intro q hq
    simp [IntegerValidator_check, hq]
  · have h : (1.15 : ℚ) = mkRat 23 20 := by norm_num [mkRat]
    rw [h]
    rfl
  · intro q m hq hm hlt
    simp [IntegerValidator_check, IntegerValidator_checkMin, hq, hm, hlt]
  · intro q M hq hminok hM hgt
    cases hm : st.minValue with
    | none =>
        simp [IntegerValidator_check, IntegerValidator_checkMin, IntegerValidator_checkMax,
          hq, hm, hM, hgt]
    | some m =>
        simp [IntegerValidator_check, IntegerValidator_checkMin, IntegerValidator_checkMax,
          hq, hm, hM, hgt, hminok m hm]
  · intro q hq hminok hmaxok
    cases hm : st.minValue with
    | none =>
        cases hM : st.maxValue with
        | none =>
            simp [IntegerValidator_check, IntegerValidator_checkMin, IntegerValidator_checkMax,
              hq, hm, hM]
        | some M =>
            simp [IntegerValidator_check, IntegerValidator_checkMin, IntegerValidator_checkMax,
              hq, hm, hM, hmaxok M hM]
    | some m =>
        cases hM : st.maxValue with
        | none =>
            simp [IntegerValidator_check, IntegerValidator_checkMin, IntegerValidator_checkMax,
              hq, hm, hM, hminok m hm]
        | some M =>
            simp [IntegerValidator_check, IntegerValidator_checkMin, IntegerValidator_checkMax,
              hq, hm, hM, hminok m hm, hmaxok M hM]

/-- Witness for claim C5 as amended, at a concrete checker: with bounds 0
and 500, the integer 120 passes. -/
theorem claim5_witness :
    IntegerValidator_check { minValue := some 0, maxValue := some 500 } (.num 120) "address.num"
      = .ok () :=
  (claim5_integer_check { minValue := some 0, maxValue := some 500 } "address.num").2.2.2.2.2.1
    120 rfl
    (fun m hm => by
      have hm' : m = 0 := by simpa using hm.symm
      subst hm'; decide)
    (fun M hM => by
      have hM' : M = 500 := by simpa using hM.symm
      subst hM'; decide)

/-- Claim C6: the compiled array checker rejects non-arrays with a
type-mismatch error, enforces the element-count bounds inclusively, then
applies the nested element checker to every element in index order with
the displayed name extended by the numeric index, the first failing
element aborting the whole field check. Because the element provider can
itself be an array provider, this recurses: the matrix schema accepts a
matrix of non-negative integers and rejects one holding -1, citing the
path matrix.1.1. -/
theorem claim6_array_check (bounds : ArrayBounds)
    (ev : JsValue → String → Except JsError Unit) (name : String) :
    (∀ v, instanceofArray v = false → ArrayValidator_check bounds ev v name
      = .error (.error ("Expected " ++ name ++ " to be an array, but got "
        ++ jsTypeof v ++ ".")))
  ∧ (∀ (xs : List JsValue) m, bounds.minLength = some m → ((xs.length : ℚ)) < m →
      ArrayValidator_check bounds ev (.arr xs) name
        = .error (.error ("Expected array length to be greater than "
          ++ jsNumToString m ++ " but got " ++ toString xs.length)))
  ∧ (∀ (xs : List JsValue) M, (∀ m, bounds.minLength = some m → ¬((xs.length : ℚ) < m)) →
      bounds.maxLength = some M → ((xs.length : ℚ)) > M →
      ArrayValidator_check bounds ev (.arr xs) name
        = .error (.error ("Expected array length to be lower than "
          ++ jsNumToString M ++ " but got " ++ toString xs.length)))
  ∧ (∀ (xs : List JsValue), (∀ m, bounds.minLength = some m → ¬((xs.length : ℚ) < m)) →
      (∀ M, bounds.maxLength = some M → ¬((xs.length : ℚ) > M)) →
      ArrayValidator_check bounds ev (.arr xs) name = runElements ev name 0 xs)
  ∧ (∀ (i : ℕ) (x : JsValue) (xs : List JsValue),
      runElements ev name i (x :: xs) = match ev x (name ++ "." ++ toString i) with
        | .error e => .error e
        | .ok _ => runElements ev name (i + 1) xs)
  ∧ (∀ (p : Provider) ev2, provide p = .ok ev2 →
      provide (.array bounds (some p)) = .ok (ArrayValidator_check bounds ev2))
  ∧ validateChain matrixChain
      (.obj [("matrix", .arr [.arr [.num 0, .num 1], .arr [.num 5, .num 8, .num 7]])])
      = .ok (.valid (.obj [("matrix", .arr [.arr [.num 0, .num 1],
          .arr [.num 5, .num 8, .num 7]])]))
  ∧ validateChain matrixChain
      (.obj [("matrix", .arr [.arr [.num 0, .num 1], .arr [.num 5, .num (-1)]])])
      = .ok (.invalid (.error "Expected matrix.1.1 to be greater than or equal to 0, but got -1.")) := by
  refine ⟨?_, ?_, ?_, ?_, fun i x xs => rfl, ?_, rfl, rfl⟩
  · intro v hv
    cases v with
    | arr xs => simp [instanceofArray] at hv
    | null => rfl
    | undefined => rfl
    | bool bv => rfl
    | num q => rfl
    | str s2 => rfl
    | obj fs => rfl
  · intro xs m hm hlt
    simp [ArrayValidator_check, ArrayValidator_checkMin, hm, hlt]
  · intro xs M hminok hM hgt
    cases hm : bounds.minLength with
    | none =>
        simp [ArrayValidator_check, ArrayValidator_checkMin, ArrayValidator_checkMax,
          hm, hM, hgt]
    | some m =>
        simp [ArrayValidator_check, ArrayValidator_checkMin, ArrayValidator_checkMax,
          hm, hM, hgt, hminok m hm]
  · intro xs hminok hmaxok
    cases hm : bounds.minLength with
    | none =>
        cases hM : bounds.maxLength with
        | none =>
            simp [ArrayValidator_check, ArrayValidator_checkMin, ArrayValidator_checkMax,
              hm, hM]
        | some M =>
            simp [ArrayValidator_check, ArrayValidator_checkMin, ArrayValidator_checkMax,
              hm, hM, hmaxok M hM]
    | some m =>
        cases hM : bounds.maxLength with
        | none =>
            simp [ArrayValidator_check, ArrayValidator_checkMin, ArrayValidator_checkMax,
              hm, hM, hminok m hm]
        | some M =>
            simp [ArrayValidator_check, ArrayValidator_checkMin, ArrayValidator_checkMax,
              hm, hM, hminok m hm, hmaxok M hM]
  · intro p ev2 hp
    simp [provide, hp]

/-- Witness for claim C6 at a concrete checker: a number in place of an
array fails with the type-mismatch message. -/
theorem claim6_witness :
    ArrayValidator_check {} (IntegerValidator_check {}) (.num 5) "prices"
      = .error (.error "Expected prices to be an array, but got number.") :=
  (claim6_array_check {} (IntegerValidator_check {}) "prices").1 (.num 5) rfl

/-- Claim C7: on every provider, setting a minimum bound above an
already-set maximum, or a maximum bound below an already-set minimum,
throws a configuration error at the setter call itself, during schema
construction. The chain with minimum string length 5 followed by maximum
string length 4 throws at build time with the cross-bound message, and a
validator is never produced, so no input is ever validated against the
inconsistent schema. -/
theorem claim7_bound_consistency :
    (∀ (st : StringValidatorState) (m M : ℚ), st.maxLength = some M → M < m →
      ((StringValidator_withMinLength m st).2).isSome = true)
  ∧ (∀ (st : StringValidatorState) (m M : ℚ), st.minLength = some m → M < m →
      ((StringValidator_withMaxLength M st).2).isSome = true)
  ∧ (∀ (st : IntegerValidatorState) (m M : ℚ), st.maxValue = some M → M < m →
      ((IntegerValidator_withMinValue m st).2).isSome = true)
  ∧ (∀ (st : IntegerValidatorState) (m M : ℚ), st.minValue = some m → M < m →
      ((IntegerValidator_withMaxValue M st).2).isSome = true)
  ∧ (∀ (st : ArrayBounds) (m M : ℚ), st.maxLength = some M → M < m →
      ((ArrayValidator_withMinLength m st).2).isSome = true)
  ∧ (∀ (st : ArrayBounds) (m M : ℚ), st.minLength = some m → M < m →
      ((ArrayValidator_withMaxLength M st).2).isSome = true)
  ∧ stringConflictChain.2
      = some (.error "Specified a max length (4) lower than the previously specified min length (5)")
  ∧ (∀ body, validateChain stringConflictChain body
      = .error (.error "Specified a max length (4) lower than the previously specified min length (5)")) := by
  refine ⟨?_, ?_, ?_, ?_, ?_, ?_, rfl, fun body => rfl⟩
  · intro st m M hM hlt
    by_cases hneg : m < 0
    · simp [StringValidator_withMinLength, hneg]
    · simp [StringValidator_withMinLength, hneg, hM, hlt]
  · intro st m M hm hlt
    by_cases hneg : M < 0
    · simp [StringValidator_withMaxLength, hneg]
    · simp [StringValidator_withMaxLength, hneg, hm, hlt]
  · intro st m M hM hlt
    simp [IntegerValidator_withMinValue, hM, hlt]
  · intro st m M hm hlt
    simp [IntegerValidator_withMaxValue, hm, hlt]
  · intro st m M hM hlt
    by_cases hneg : m < 0
    · simp [ArrayValidator_withMinLength, hneg]
    · simp [ArrayValidator_withMinLength, hneg, hM, hlt]
  · intro st m M hm hlt
    by_cases hneg : M < 0
    · simp [ArrayValidator_withMaxLength, hneg]
    · simp [ArrayValidator_withMaxLength, hneg, hm, hlt]

/-- Witness for claim C7 at a concrete setter call: with minimum string
length 5 already set, setting maximum length 4 throws. -/
theorem claim7_witness :
    ((StringValidator_withMaxLength 4 { minLength := some 5 }).2).isSome = true :=
  claim7_bound_consistency.2.1 { minLength := some 5 } 5 4 rfl (by decide)

/-- Claim C8, on the divergence of the code from its own documentation:
parsePath throws the configuration error at schema-build time for every
empty segment (trailing, double and leading dots, also after trimming),
but the returned path is the list of segments as split, not trimmed: the
path a dot space b parses to segments a and space-b, not a and b, and the
comment on ValueConfig in the source (the computed path, splitted on dots,
trimmed, without empty part) says the segments are trimmed. The untrimmed
segment is observable: a validator requiring that path cannot find the
value under the b key of a nested object. -/
theorem claim8_parsePath_untrimmed :
    parsePath "a. b" = .ok ["a", " b"]
  ∧ ["a", " b"] ≠ ["a", "b"]
  ∧ (ValidatorBuilder_requires "a. b" ValidatorBuilder_new).1.config
      = some ⟨"a. b", ["a", " b"], true, [], none⟩
  ∧ validateChain aSpaceBChain (.obj [("a", .obj [("b", .num 1)])])
      = .ok (.invalid (.error "a. b is required, but it can\x27t be found in body."))
  ∧ parsePath "test." = .error (.error "Provided path contains empty parts.")
  ∧ parsePath "test..othertest" = .error (.error "Provided path contains empty parts.")
  ∧ parsePath ".test.other" = .error (.error "Provided path contains empty parts.")
  ∧ parsePath "   .   .test" = .error (.error "Provided path contains empty parts.")
  ∧ parsePath "  " = .error (.error "Provided path is empty") :=
  ⟨rfl, by decide, rfl, rfl, rfl, rfl, rfl, rfl, rfl⟩

/-- Claim C9: validate never throws; it always returns a ValidationResult,
the valid one carrying the original body or the invalid one carrying
whatever error the checker loop raised — including the TypeError raised
while resolving a path whose intermediate container is null, since typeof
null is the string object and property access on null throws. -/
theorem claim9_validate_never_throws (fields : List FieldSpec) (body : JsValue) :
    (validate fields body = .valid body ∨ ∃ e, validate fields body = .invalid e)
  ∧ (∀ e, runCheckers fields body = .error e → validate fields body = .invalid e)
  ∧ validateChain abcIntChain (.obj [("a", .null)])
      = .ok (.invalid (.typeError "Cannot read property b of null")) := by
  refine ⟨?_, ?_, rfl⟩
  · cases hr : runCheckers fields body with
    | ok u => cases u; exact Or.inl (by simp [validate, hr])
    | error e => exact Or.inr ⟨e, by simp [validate, hr]⟩
  · intro e he
    simp [validate, he]

/-- Witness for claim C9 at a concrete validator and body: the error of a
required field against the null body is returned, not thrown. -/
theorem claim9_witness :
    validate [⟨"x", ["x"], true, IntegerValidator_check {}⟩] .null
      = .invalid (.error "x is required, but got an empty body.") :=
  (claim9_validate_never_throws [⟨"x", ["x"], true, IntegerValidator_check {}⟩] .null).2.1
    (.error "x is required, but got an empty body.") rfl

/-- Claim C10: every bound setter stores the new bound into the provider
before running the cross-bound consistency check (the negativity guard of
the string and array setters runs before the store), so when the
consistency check throws, the provider keeps the newly-set inconsistent
bound, and a checker compiled from it afterwards observes that bound. -/
theorem claim10_setter_stores_before_check :
    (∀ (st : StringValidatorState) (m : ℚ), ¬ m < 0 →
      (StringValidator_withMinLength m st).1 = { st with minLength := some m })
  ∧ (∀ (st : StringValidatorState) (M : ℚ), ¬ M < 0 →
      (StringValidator_withMaxLength M st).1 = { st with maxLength := some M })
  ∧ (∀ (st : IntegerValidatorState) (m : ℚ),
      (IntegerValidator_withMinValue m st).1 = { st with minValue := some m })
  ∧ (∀ (st : IntegerValidatorState) (M : ℚ),
      (IntegerValidator_withMaxValue M st).1 = { st with maxValue := some M })
  ∧ (∀ (st : ArrayBounds) (m : ℚ), ¬ m < 0 →
      (ArrayValidator_withMinLength m st).1 = { st with minLength := some m })
  ∧ (∀ (st : ArrayBounds) (M : ℚ), ¬ M < 0 →
      (ArrayValidator_withMaxLength M st).1 = { st with maxLength := some M })
  ∧ StringValidator_withMinLength 5 {} = ({ minLength := some 5 }, none)
  ∧ StringValidator_withMaxLength 4 { minLength := some 5 }
      = ({ minLength := some 5, maxLength := some 4 },
         some (.error "Specified a max length (4) lower than the previously specified min length (5)"))
  ∧ StringValidator_check { minLength := some 5, maxLength := some 4 } (.str "abcde") "f"
      = .error (.error "Expected f to be shorter than or equal to 4, but got length of 5.") := by
  refine ⟨?_, ?_, ?_, ?_, ?_, ?_, rfl, rfl, rfl⟩
  · intro st m hneg
    cases hM : st.maxLength with
    | none => simp [StringValidator_withMinLength, hneg, hM]
    | some M =>
        by_cases hc : M < m
        · simp [StringValidator_withMinLength, hneg, hM, hc]
        · simp [StringValidator_withMinLength, hneg, hM, hc]
  · intro st M hneg
    cases hm : st.minLength with
    | none => simp [StringValidator_withMaxLength, hneg, hm]
    | some m =>
        by_cases hc : M < m
        · simp [StringValidator_withMaxLength, hneg, hm, hc]
        · simp [StringValidator_withMaxLength, hneg, hm, hc]
  · intro st m
    cases hM : st.maxValue with
    | none => simp [IntegerValidator_withMinValue, hM]
    | some M =>
        by_cases hc : M < m
        · simp [IntegerValidator_withMinValue, hM, hc]
        · simp [IntegerValidator_withMinValue, hM, hc]
  · intro st M
    cases hm : st.minValue with
    | none => simp [IntegerValidator_withMaxValue, hm]
    | some m =>
        by_cases hc : M < m
        · simp [IntegerValidator_withMaxValue, hm, hc]
        · simp [IntegerValidator_withMaxValue, hm, hc]
  · intro st m hneg
    cases hM : st.maxLength with
    | none => simp [ArrayValidator_withMinLength, hneg, hM]
    | some M =>
        by_cases hc : M < m
        · simp [ArrayValidator_withMinLength, hneg, hM, hc]
        · simp [ArrayValidator_withMinLength, hneg, hM, hc]
  · intro st M hneg
    cases hm : st.minLength with
    | none => simp [ArrayValidator_withMaxLength, hneg, hm]
    | some m =>
        by_cases hc : M < m
        · simp [ArrayValidator_withMaxLength, hneg, hm, hc]
        · simp [ArrayValidator_withMaxLength, hneg, hm, hc]

/-- Witness for claim C10 at a concrete setter call: the integer setter
stores the maximum 4 even though the minimum 5 was already set. -/
theorem claim10_witness :
    (IntegerValidator_withMaxValue 4 { minValue := some 5 }).1
      = { minValue := some 5, maxValue := some 4 } :=
  claim10_setter_stores_before_check.2.2.2.1 { minValue := some 5 } 4

